import Mathlib

/-!
Verification development for the fepy-backend invoice pipeline.

The Lean definitions below are a shallow embedding of the JavaScript
source of the repository:

  - services/procesarFacturaService.js  (pipeline, CDC, check digit,
    result-code interpreter, artifact filename construction)
  - routes/get_einvoice.js              (ingress endpoint, duplicate hash)
  - the invoice routes file             (second result-code interpreter)
  - the worker file                     (dequeue, state writes, saves)
  - the queue configuration file       (Bull job options)
  - utils/fechaUtils.js                 (datetime normalization)
  - models/Invoice.js                   (record fields)

Modelling conventions, used consistently below:
  - JavaScript strings are Lean String, numbers are Nat, and a field
    that may be undefined or null is an Option.
  - JavaScript falsiness of a string value (undefined, null or the
    empty string) is captured by jsStr; falsiness of a number
    (undefined, null or 0) by orElseNat.
  - Code that can throw is embedded in Except String.
  - Calls into external libraries (xmlgen, xmlsign, qrgen, the SET
    client, xml2js extraction) are inputs of the model: an ExtCalls
    record says, for one run, what each call returned or threw.
  - Sources of nondeterminism in the source (Math.random, new Date(),
    the JS date parser applied by normalizarDatetime) are explicit
    parameters, bundled in Entorno for the CDC generator.
-/

namespace Fepy

/-- JavaScript truthiness for an optional string: undefined, null and
the empty string are falsy; every other string is truthy. -/
def jsStr (o : Option String) : Option String :=
  match o with
  | some s => if s = "" then none else some s
  | none => none

/-- Embedding of the JavaScript idiom `a || d` for an optional string
`a` and a string default `d`. -/
def orElseStr (o : Option String) (d : String) : String :=
  match jsStr o with
  | some s => s
  | none => d

/-- Embedding of the JavaScript idiom `a || d` for an optional number:
undefined, null and 0 are falsy. -/
def orElseNat (o : Option Nat) (d : Nat) : Nat :=
  match o with
  | some n => if n = 0 then d else n
  | none => d

/-- Embedding of String.prototype.padStart(n, ch) on the character
list of a string. -/
def padStartList (l : List Char) (n : Nat) (ch : Char) : List Char :=
  List.replicate (n - l.length) ch ++ l

/-- Embedding of s.padStart(n, zero character), the only use in the
source. -/
def padStartStr (s : String) (n : Nat) : String :=
  String.mk (padStartList s.data n (Char.ofNat 48))

/-- Result-code interpreter of services/procesarFacturaService.js
(function determinarEstadoSegunCodigoRetorno, lines 567-573).  The two
auxiliary arguments are accepted and ignored exactly as in the source. -/
def determinarEstadoSegunCodigoRetorno (codigo : Option String)
    (_estadoResultado _mensaje : Option String) : String :=
  match jsStr codigo with
  | none => "enviado"
  | some c =>
    if c = "0000" ∨ c = "0" ∨ c = "2" ∨ c = "0421" then "aceptado"
    else if c = "3" ∨ c = "0003" then "procesando"
    else if c = "1000" ∨ c = "1001" ∨ c = "1002" ∨ c = "1003" ∨ c = "1004" ∨ c = "1" then
      "rechazado"
    else "enviado"

/-- Result-code interpreter of the invoice routes file (the copy used
by the retry endpoint, lines 373-402).  Identical to the service copy
except that it has an extra branch mapping the code 0420 to error. -/
def determinarEstadoSegunCodigoRetornoRutas (codigoRetorno : Option String)
    (_estadoResultado _mensajeRetorno : Option String) : String :=
  match jsStr codigoRetorno with
  | none => "enviado"
  | some c =>
    if c = "0000" ∨ c = "0" ∨ c = "2" then "aceptado"
    else if c = "0421" then "aceptado"
    else if c = "3" ∨ c = "0003" then "procesando"
    else if c = "0420" then "error"
    else if c = "1000" ∨ c = "1001" ∨ c = "1002" ∨ c = "1003" ∨ c = "1004" ∨ c = "1" then
      "rechazado"
    else "enviado"

/-- Embedding of parseInt applied to a single character as in
calcularDV: a decimal digit parses to its value, anything else to NaN
(represented by none). -/
def parseDigit (c : Char) : Option Nat :=
  if c.isDigit then some (c.toNat - 48) else none

/-- The loop body of calcularDV: scan the digit list (already ordered
right to left) carrying the cycling multiplier, which starts at 2,
increments up to 7 and then resets to 2. -/
def sumaPonderada : List Nat → Nat → Nat
  | [], _ => 0
  | d :: resto, mult => d * mult + sumaPonderada resto (if mult ≥ 7 then 2 else mult + 1)

/-- The arithmetic tail of calcularDV on an already-parsed digit list
(digits in the original left-to-right order). -/
def dvDeDigitos (ds : List Nat) : Nat :=
  let resto := sumaPonderada ds.reverse 2 % 11
  if resto = 0 then 0 else if resto = 1 then 1 else 11 - resto

/-- Check-digit function of services/procesarFacturaService.js
(function calcularDV, lines 524-537).  If any character of the input
is not a decimal digit, parseInt yields NaN, the sum is NaN and the
function returns the string NaN, which the none branch models. -/
def calcularDV (cdc : String) : String :=
  match cdc.data.mapM parseDigit with
  | some ds => toString (dvDeDigitos ds)
  | none => "NaN"

/-- Weight of the i-th digit counted from the right, as the
specification words it: start at 2, increment up to 7, reset to 2. -/
def pesoSpec (i : Nat) : Nat := 2 + i % 6

/-- Modelled from the spec: the check-digit algorithm as section 4.1
words it, written independently of the source loop: multiply each
digit, taken right to left, by the cycling weight, sum the products,
reduce modulo 11, and map remainder 0 to 0, 1 to 1 and r to 11 - r. -/
def dvSpecDeDigitos (ds : List Nat) : Nat :=
  let s := (List.zipWith (fun d w => d * w) ds.reverse
    ((List.range ds.length).map pesoSpec)).sum
  let r := s % 11
  if r = 0 then 0 else if r = 1 then 1 else 11 - r

/-- A calendar date as the source reads it off a JavaScript Date:
getFullYear, getMonth() + 1, getDate. -/
structure Fecha where
  anio : Nat
  mes : Nat
  dia : Nat

/-- The nondeterministic inputs of one call of generarCDC:
Math.floor(Math.random() * 900000000), the current date, and the
composite of normalizarDatetime with the JavaScript Date constructor,
which for a fixed engine is a pure partial parse (none models an input
on which normalizarDatetime falls back to the current time, in which
case the source uses the current date). -/
structure Entorno where
  aleatorio : Nat
  ahora : Fecha
  parseYMD : String → Option Fecha

/-- The YYYYMMDD date block of the CDC: template literal over
getFullYear (unpadded) and zero-padded month and day. -/
def formatearFechaEmision (f : Fecha) : String :=
  toString f.anio ++ padStartStr (toString f.mes) 2 ++ padStartStr (toString f.dia) 2

/-- The idDoc subobject of an invoice payload header, with exactly the
fields the modelled code paths read. -/
structure IdDoc where
  tipDoc : Option Nat := none
  dNumTim : Option String := none
  dEst : Option String := none
  dPunExp : Option String := none
  numDoc : Option String := none
  correlativo : Option String := none

/-- An invoice payload header.  Only idDoc is read by the modelled
code paths. -/
structure Encabezado where
  idDoc : Option IdDoc := none

/-- An invoice payload (datosFactura), restricted to the fields read
by the modelled operations: hashing, CDC generation, header defaults
and artifact-filename construction. -/
structure DatosFactura where
  ruc : Option String := none
  emisorRuc : Option String := none
  tipoDocumento : Option Nat := none
  establecimiento : Option String := none
  punto : Option String := none
  numero : Option String := none
  tipoEmision : Option Nat := none
  codigoSeguridadAleatorio : Option Nat := none
  fecha : Option String := none
  timbrado : Option String := none
  encabezado : Option Encabezado := none

/-- The 43-character CDC before its check digit, as generarCDC builds
it (services/procesarFacturaService.js lines 485-513): document type,
issuer RUC and its check digit, establishment, emission point,
document number, taxpayer type, issuance date, emission type and the
9-digit security code.  A missing or zero security-code field draws
the fresh random value of the environment; a missing or unparseable
date falls back to the current date. -/
def generarCDCSinDV (d : DatosFactura) (env : Entorno) : String :=
  let tipoDocumento := padStartStr (toString (orElseNat d.tipoDocumento 1)) 2
  let rucCompleto := String.mk
    ((orElseStr d.ruc (orElseStr d.emisorRuc "8001234-5")).data.filter (fun c => c ≠ '-'))
  let rucEmisor := padStartStr (String.mk (rucCompleto.data.take 8)) 8
  let dvEmisor := match (rucCompleto.data.drop 8).take 1 with
    | [] => "1"
    | l => String.mk l
  let establecimiento := padStartStr (orElseStr d.establecimiento "001") 3
  let puntoExp := padStartStr (orElseStr d.punto "001") 3
  let numeroDoc := padStartStr (orElseStr d.numero "0000001") 7
  let tipoContribuyente := "1"
  let fechaEmision := match jsStr d.fecha with
    | some s => match env.parseYMD s with
      | some f => formatearFechaEmision f
      | none => formatearFechaEmision env.ahora
    | none => formatearFechaEmision env.ahora
  let tipoEmision := padStartStr (toString (orElseNat d.tipoEmision 1)) 1
  let codigoSeguridad := padStartStr (toString (orElseNat d.codigoSeguridadAleatorio env.aleatorio)) 9
  tipoDocumento ++ rucEmisor ++ dvEmisor ++ establecimiento ++ puntoExp ++ numeroDoc ++
    tipoContribuyente ++ fechaEmision ++ tipoEmision ++ codigoSeguridad

/-- Control-identifier generator of services/procesarFacturaService.js
(function generarCDC, lines 485-519): the 43-character prefix followed
by its modulo-11 check digit. -/
def generarCDC (d : DatosFactura) (env : Entorno) : String :=
  let sinDV := generarCDCSinDV d env
  sinDV ++ calcularDV sinDV

/-- Recognizer for the 19-character prefix of the microseconds
pattern of normalizarDatetime (utils/fechaUtils.js): four digits,
dash, two digits, dash, two digits, letter T, two digits, colon, two
digits, colon, two digits. -/
def patronFechaBase : List Char → Bool
  | [a, b, c, d, g1, e, f, g2, g, h, t, i, j, p1, k, l, p2, m, n] =>
    g1 = Char.ofNat 45 && g2 = Char.ofNat 45 && t = Char.ofNat 84 &&
    p1 = Char.ofNat 58 && p2 = Char.ofNat 58 &&
    ([a, b, c, d, e, f, g, h, i, j, k, l, m, n].all Char.isDigit)
  | _ => false

/-- The regular-expression match of normalizarDatetime that detects a
datetime carrying six microsecond digits, returning the base part, the
six digits and the remainder of the string. -/
def microsegundosMatch (s : String) : Option (String × String × String) :=
  let cs := s.data
  let base := cs.take 19
  let micro := (cs.drop 20).take 6
  let resto := cs.drop 26
  if 26 ≤ cs.length && patronFechaBase base && cs.get? 19 = some (Char.ofNat 46) &&
      micro.all Char.isDigit then
    some (String.mk base, String.mk micro, String.mk resto)
  else none

/-- Datetime normalization of utils/fechaUtils.js (function
normalizarDatetime) restricted to the string and absent cases the
routes feed it.  The argument jsParse models new Date followed by
toISOString for a fixed JavaScript engine: a pure partial function,
none when the date is invalid.  The argument ahora models the
current-time fallback (new Date().toISOString()), which the source
returns for an absent, empty or unparseable input. -/
def normalizarDatetime (jsParse : String → Option String) (ahora : String)
    (s? : Option String) : String :=
  match jsStr s? with
  | none => ahora
  | some s =>
    match microsegundosMatch s with
    | some (base, micro, resto) =>
      base ++ "." ++ String.mk (micro.data.take 3) ++ (if resto = "" then "Z" else resto)
    | none =>
      match jsParse s with
      | some iso => iso
      | none => ahora

/-- Top-level date normalization the ingress route applies to the
payload before hashing (normalizarFechasEnObjeto): the fecha field,
when present, is replaced by its normalization. -/
def normalizarFechasEnObjeto (jsParse : String → Option String) (ahora : String)
    (d : DatosFactura) : DatosFactura :=
  match d.fecha with
  | some s => { d with fecha := some (normalizarDatetime jsParse ahora (some s)) }
  | none => d

/-- Duplicate fingerprint of routes/get_einvoice.js (function
generarFacturaHash): the SHA-256 digest over the canonical string
formed by the digit-only RUC, the document number and the normalized
date, separated by pipe characters.  SHA-256 is a fixed deterministic
function of that string, and only equality of fingerprints is ever
consumed, so the digest is modelled by its preimage string. -/
def generarFacturaHash (jsParse : String → Option String) (ahora : String)
    (d : DatosFactura) : String :=
  let ruc := match d.ruc with
    | some s => String.mk (s.data.filter Char.isDigit)
    | none => ""
  let numero := orElseStr d.numero ""
  let fecha := normalizarDatetime jsParse ahora d.fecha
  ruc ++ "|" ++ numero ++ "|" ++ fecha

/-- An issuer (Empresa) with the fields the modelled code paths
read: the RUC, the active flag, the result of
tieneCertificadoValido(), and configuracionSifen.timbrado. -/
structure Empresa where
  ruc : String
  activo : Bool
  certValido : Bool
  timbrado : Option String := none

/-- Embedding of String.prototype.trim: strip whitespace from both
ends, written over the character list so that it evaluates inside the
kernel. -/
def jsTrim (s : String) : String :=
  String.mk (((s.data.dropWhile Char.isWhitespace).reverse.dropWhile Char.isWhitespace).reverse)

/-- Issuer lookup of routes/get_einvoice.js lines 56-71: exact RUC
first, then the digit-only form when the query has a dash, then the
dash-inserted form when it does not and the digit count is between 7
and 9. -/
def buscarEmpresa (empresas : List Empresa) (rucEmpresa : String) : Option Empresa :=
  match empresas.find? (fun e => e.ruc = rucEmpresa) with
  | some e => some e
  | none =>
    let digitos := String.mk (rucEmpresa.data.filter Char.isDigit)
    if rucEmpresa.data.contains (Char.ofNat 45) then
      empresas.find? (fun e => e.ruc = digitos)
    else if 7 ≤ digitos.length ∧ digitos.length ≤ 9 then
      let parteNumerica := String.mk digitos.data.dropLast
      let dv := String.mk (digitos.data.drop (digitos.length - 1))
      empresas.find? (fun e => e.ruc = parteNumerica ++ "-" ++ dv)
    else none

/-- An Invoice record (models/Invoice.js) with the fields the ingress
route assigns at creation plus the identifier. -/
structure InvoiceRec where
  id : Nat
  correlativo : String
  estadoSifen : String
  facturaHash : String

/-- The response of the ingress endpoint, restricted to the variants
and payload parts the claims mention.  conflicto carries HTTP 409 and
the id of the existing record; aceptado carries HTTP 202 and the id of
the record just created. -/
inductive RespuestaIngreso where
  | rucRequerido
  | empresaNoEncontrada
  | empresaInactiva
  | certificadoInvalido
  | conflicto (facturaId : Nat)
  | aceptado (facturaId : Nat)
deriving DecidableEq, Repr

/-- The record the ingress endpoint inserts: correlative from the
establishment, point and padded number, initial state encolado, and
the duplicate fingerprint. -/
def crearInvoice (idNuevo : Nat) (d : DatosFactura) (hash : String) : InvoiceRec :=
  { id := idNuevo
    correlativo := orElseStr d.establecimiento "001" ++ orElseStr d.punto "001" ++
      padStartStr (orElseStr d.numero "0000001") 7
    estadoSifen := "encolado"
    facturaHash := hash }

/-- Ingress endpoint of routes/get_einvoice.js (POST handler, lines
29-190): normalize dates, require a RUC, look up and validate the
issuer, compute the duplicate fingerprint, answer 409 with the
existing record when one matches, otherwise insert a record in state
encolado and answer 202.  The database is the list of invoice records;
a fresh id is the current length of that list.  Job enqueueing and the
response body details beyond the record id are not modelled. -/
def postGetEinvoice (empresas : List Empresa) (db : List InvoiceRec)
    (jsParse : String → Option String) (ahora : String) (d0 : DatosFactura) :
    RespuestaIngreso × List InvoiceRec :=
  let d := normalizarFechasEnObjeto jsParse ahora d0
  match jsStr (d.ruc.map jsTrim) with
  | none => (RespuestaIngreso.rucRequerido, db)
  | some rucEmpresa =>
    match buscarEmpresa empresas rucEmpresa with
    | none => (RespuestaIngreso.empresaNoEncontrada, db)
    | some e =>
      if ¬ e.activo then (RespuestaIngreso.empresaInactiva, db)
      else if ¬ e.certValido then (RespuestaIngreso.certificadoInvalido, db)
      else
        let hash := generarFacturaHash jsParse ahora d
        match db.find? (fun i => i.facturaHash = hash) with
        | some existente => (RespuestaIngreso.conflicto existente.id, db)
        | none =>
          let nuevo := crearInvoice db.length d hash
          (RespuestaIngreso.aceptado nuevo.id, db ++ [nuevo])

/-- Payload completion of services/procesarFacturaService.js
(function completarDatosConEmpresa, lines 409-480), restricted to the
modelled fields: the issuer RUC overwrites the payload RUC, the
document type defaults to 1, and a missing header is replaced by the
default header built from the issuer timbrado, establishment 001,
emission point 001 and the (possibly defaulted) document number. -/
def completarDatosConEmpresa (d : DatosFactura) (e : Empresa) : DatosFactura :=
  let timbrado := orElseStr e.timbrado "12345678"
  let tipoDocumento := orElseNat d.tipoDocumento 1
  { d with
    ruc := some e.ruc
    tipoDocumento := some tipoDocumento
    encabezado := match d.encabezado with
      | some enc => some enc
      | none => some { idDoc := some {
          tipDoc := some tipoDocumento
          dNumTim := some timbrado
          dEst := some "001"
          dPunExp := some "001"
          numDoc := some (orElseStr d.numero "0000001")
          correlativo := some ("001" ++ "001" ++ padStartStr (orElseStr d.numero "0000001") 7) } } }

/-- The captured groups of the SOAP-response regular expressions, the
only part of the response the pipeline reads.  Each field is the
trimmed captured group, none when the tag is absent. -/
structure SoapCampos where
  codigoRetorno : Option String := none
  mensajeRetorno : Option String := none
  digestValue : Option String := none
  fechaProceso : Option String := none
  estadoResultado : Option String := none
deriving DecidableEq, Repr

/-- Embedding of extraerCodigoRetorno: the captured group or the
default 0000 when the tag is absent or empty. -/
def extraerCodigoRetorno (campo : Option String) : String := orElseStr campo "0000"

/-- Embedding of extraerMensajeRetorno and the other nullable
extractors: the captured group or null. -/
def extraerCampoOpcional (campo : Option String) : Option String := jsStr campo

/-- What each external call of one pipeline run returned or threw:
the XML generator, the signer, the QR stamper and the SET submission
client, plus the two values the xml2js extraction block reads off the
stamped XML (none models absence or an extraction failure, for which
the source falls back to its defaults). -/
structure ExtCalls where
  xmlgen : Except String String
  firmar : Except String String
  qr : Except String String
  recibe : Except String SoapCampos
  tipoDocumentoDescripcion : Option String := none
  serieDelXML : Option String := none

/-- Optional-chain read of a field of encabezado.idDoc, the embedding
of the idiom datosCompletos.encabezado?.idDoc?.campo. -/
def campoIdDoc (d : DatosFactura) (f : IdDoc → Option String) : Option String :=
  match d.encabezado with
  | some enc =>
    match enc.idDoc with
    | some idd => f idd
    | none => none
  | none => none

/-- Artifact filename construction of services/procesarFacturaService.js
lines 200-231.  The third operand of the emission-point fallback chain
at line 223 is the bare identifier puntoEmision, which is not bound in
the scope of procesarFactura (it is a local constant of
completarDatosConEmpresa only), so when both datosCompletos.punto and
encabezado.idDoc.dPunExp are absent or empty, evaluating the chain
throws a ReferenceError; the error branch embeds that throw. -/
def construirNombreArchivo (dc : DatosFactura) (timbradoVar : String)
    (tipoDocumentoDescripcion? serieDelXML? : Option String) : Except String String :=
  let tipoDocumentoDescripcion := orElseStr tipoDocumentoDescripcion? "Factura"
  let timbradoStr := orElseStr dc.timbrado (orElseStr (campoIdDoc dc IdDoc.dNumTim) timbradoVar)
  let establecimientoStr :=
    padStartStr (orElseStr dc.establecimiento (orElseStr (campoIdDoc dc IdDoc.dEst) "001")) 3
  match jsStr dc.punto <|> jsStr (campoIdDoc dc IdDoc.dPunExp) with
  | none => Except.error "ReferenceError: puntoEmision is not defined"
  | some punto =>
    let puntoStr := padStartStr punto 3
    let numeroStr :=
      padStartStr (orElseStr dc.numero (orElseStr (campoIdDoc dc IdDoc.numDoc) "0000001")) 7
    let base := tipoDocumentoDescripcion ++ "_" ++ timbradoStr ++ "-" ++ establecimientoStr ++
      "-" ++ puntoStr ++ "-" ++ numeroStr
    Except.ok ((match jsStr serieDelXML? with
      | some serie => base ++ "-" ++ serie
      | none => base) ++ ".xml")

/-- The observable actions of one pipeline run, in execution order:
the external transforms, the network submission call (setApi.recibe)
and the durable artifact write (fs.writeFileSync). -/
inductive Evento where
  | generarXML
  | firmarXML
  | generarQR
  | enviarSET
  | guardarXML
deriving DecidableEq, Repr

/-- The object procesarFactura returns on success (lines 243-256). -/
structure Resultado where
  cdc : String
  xmlPath : String
  rutaArchivo : String
  estado : String
  codigoRetorno : String
  mensajeRetorno : Option String
  digestValue : Option String
  fechaProceso : Option String
  correlativo : String
deriving DecidableEq, Repr

/-- Pipeline orchestrator of services/procesarFacturaService.js
(function procesarFactura, lines 30-262), as the list of observable
actions it performed, in order, paired with its outcome.  The source
order is kept exactly: the issuer checks, payload completion and CDC
generation come first, then XML generation, signing and QR stamping,
then the submission call setApi.recibe at line 155, and only after a
successful submission the artifact filename construction and the
fs.writeFileSync call at line 233.  The single catch block at lines
258-261 logs and rethrows, so every thrown error escapes the
function; the Except.error results model exactly that propagation. -/
def procesarFactura (d : DatosFactura) (empresa? : Option Empresa)
    (ext : ExtCalls) (env : Entorno) : List Evento × Except String Resultado :=
  match empresa? with
  | none => ([], Except.error "Empresa no encontrada")
  | some e =>
    if ¬ e.activo then ([], Except.error "Empresa inactiva")
    else if ¬ e.certValido then
      ([], Except.error "La empresa no tiene un certificado digital valido")
    else
      let dc := completarDatosConEmpresa d e
      let cdcGenerado := generarCDC dc env
      let timbrado := orElseStr dc.timbrado (orElseStr e.timbrado "12345678")
      match ext.xmlgen with
      | Except.error m => ([Evento.generarXML], Except.error m)
      | Except.ok _ =>
        match ext.firmar with
        | Except.error m => ([Evento.generarXML, Evento.firmarXML], Except.error m)
        | Except.ok _ =>
          match ext.qr with
          | Except.error m =>
            ([Evento.generarXML, Evento.firmarXML, Evento.generarQR], Except.error m)
          | Except.ok _ =>
            match ext.recibe with
            | Except.error m =>
              ([Evento.generarXML, Evento.firmarXML, Evento.generarQR, Evento.enviarSET],
                Except.error m)
            | Except.ok soap =>
              let codigoRetorno := extraerCodigoRetorno soap.codigoRetorno
              let mensajeRetorno := extraerCampoOpcional soap.mensajeRetorno
              let digestValue := extraerCampoOpcional soap.digestValue
              let fechaProceso := extraerCampoOpcional soap.fechaProceso
              let estadoResultado := extraerCampoOpcional soap.estadoResultado
              let estadoSifen :=
                determinarEstadoSegunCodigoRetorno (some codigoRetorno) estadoResultado mensajeRetorno
              let correlativo := orElseStr (campoIdDoc dc IdDoc.correlativo)
                ("001" ++ "001" ++ padStartStr (orElseStr dc.numero "0000001") 7)
              match construirNombreArchivo dc timbrado ext.tipoDocumentoDescripcion ext.serieDelXML with
              | Except.error m =>
                ([Evento.generarXML, Evento.firmarXML, Evento.generarQR, Evento.enviarSET],
                  Except.error m)
              | Except.ok nombreArchivo =>
                let xmlPathRelativo := toString env.ahora.anio ++ "/" ++
                  padStartStr (toString env.ahora.mes) 2 ++ "/" ++ nombreArchivo
                ([Evento.generarXML, Evento.firmarXML, Evento.generarQR, Evento.enviarSET,
                    Evento.guardarXML],
                  Except.ok {
                    cdc := cdcGenerado
                    xmlPath := xmlPathRelativo
                    rutaArchivo := "de_output/" ++ xmlPathRelativo
                    estado := estadoSifen
                    codigoRetorno := codigoRetorno
                    mensajeRetorno := mensajeRetorno
                    digestValue := digestValue
                    fechaProceso := fechaProceso
                    correlativo := correlativo })

/-- The Invoice fields the worker assigns immediately before one
invoice.save() call; a none field was left untouched by that save. -/
structure CamposGuardados where
  estadoSifen : String
  cdc : Option String := none
  codigoRetorno : Option String := none
  mensajeRetorno : Option String := none
  digestValue : Option String := none
  fechaProceso : Option String := none
  xmlPath : Option String := none
  fechaEnvioAsignada : Bool := false
deriving DecidableEq, Repr

/-- The save the worker issues right after dequeue, before any
pipeline stage: only the state, set to procesando. -/
def guardadoProcesando : CamposGuardados := { estadoSifen := "procesando" }

/-- The single save of the worker success path (worker file lines
84-93): final state together with CDC, result code, result message,
digest, process date, artifact path and submission timestamp. -/
def guardadoExito (r : Resultado) : CamposGuardados :=
  { estadoSifen := r.estado
    cdc := some r.cdc
    codigoRetorno := some r.codigoRetorno
    mensajeRetorno := r.mensajeRetorno
    digestValue := r.digestValue
    fechaProceso := r.fechaProceso
    xmlPath := some r.xmlPath
    fechaEnvioAsignada := true }

/-- The single save of the worker catch block (worker file lines
143-146): state error and the error message, nothing else. -/
def guardadoError (m : String) : CamposGuardados :=
  { estadoSifen := "error", mensajeRetorno := some m }

/-- The invoice.save() calls of one worker execution, in order, as a
function of the pipeline outcome. -/
def workerSaves (run : Except String Resultado) : List CamposGuardados :=
  [guardadoProcesando,
    match run with
    | Except.ok r => guardadoExito r
    | Except.error m => guardadoError m]

/-- One observable step of a worker execution: an invoice.save() call
or a pipeline stage action. -/
inductive EventoWorker where
  | guardar (c : CamposGuardados)
  | etapa (e : Evento)
deriving DecidableEq, Repr

/-- One full worker execution for an invoice that exists in the
database (worker file lines 38-159): the procesando save first, then
the pipeline stages of procesarFactura, then the single final save,
taken from the success path or from the catch block. -/
def workerRun (d : DatosFactura) (empresa? : Option Empresa)
    (ext : ExtCalls) (env : Entorno) : List EventoWorker :=
  let r := procesarFactura d empresa? ext env
  [EventoWorker.guardar guardadoProcesando] ++ r.1.map EventoWorker.etapa ++
    [EventoWorker.guardar (match r.2 with
      | Except.ok res => guardadoExito res
      | Except.error m => guardadoError m)]

/-- The job options of the invoicing queue as the queue configuration
file sets them: attempts 3, exponential backoff with base delay 1000
milliseconds, and failed jobs retained up to a count of 10000. -/
structure OpcionesCola where
  attempts : Nat
  backoffDelay : Nat
  removeOnFailCount : Nat

/-- defaultJobOptions of the facturacion queue (queue configuration
file lines 21-37). -/
def facturaQueueOpciones : OpcionesCola :=
  { attempts := 3, backoffDelay := 1000, removeOnFailCount := 10000 }

/-- The lifecycle states of a queued job. -/
inductive EstadoJob where
  | waiting
  | active
  | completed
  | failed
deriving DecidableEq, Repr

/-- Modelled from the spec: the retry engine of the queue library
(Bull) is external to the repository, which only configures it; spec
sections 4.4 and 8 describe its behavior: a failing attempt returns
the job to waiting while attempts remain, with exponential backoff
between consecutive attempts (the configured base delay doubling after
each failure), and after the configured maximum the job settles in the
failed terminal state.  The recursion executes attempts k, k+1,
... while they fail, recording the delay before each retry. -/
def ejecutarJobAux (resultadoIntento : Nat → Bool) (delayBase : Nat) :
    Nat → Nat → Nat × List Nat × EstadoJob
  | _, 0 => (0, [], EstadoJob.failed)
  | k, restantes + 1 =>
    if resultadoIntento k then (1, [], EstadoJob.completed)
    else if restantes = 0 then (1, [], EstadoJob.failed)
    else
      let retraso := delayBase * 2 ^ k
      let r := ejecutarJobAux resultadoIntento delayBase (k + 1) restantes
      (r.1 + 1, retraso :: r.2.1, r.2.2)

/-- Modelled from the spec: run one job to settlement under the given
options; returns the number of attempts performed, the list of delays
between consecutive attempts, and the settled state. -/
def ejecutarJob (o : OpcionesCola) (resultadoIntento : Nat → Bool) :
    Nat × List Nat × EstadoJob :=
  ejecutarJobAux resultadoIntento o.backoffDelay 0 o.attempts

/-- Modelled from the spec: a failed job is retained for inspection
when the removeOnFail policy keeps a positive count of failed jobs
instead of discarding them. -/
def jobRetenidoTrasFallo (o : OpcionesCola) : Bool :=
  decide (0 < o.removeOnFailCount)

/-- The string with its last character removed. -/
def stripLast (s : String) : String := String.mk s.data.dropLast

/-- The one-character string holding the last character, empty when
the string is empty. -/
def lastStr (s : String) : String := String.mk s.data.getLast?.toList

/-- True exactly on the save steps of a worker execution. -/
def esGuardado (w : EventoWorker) : Bool :=
  match w with
  | EventoWorker.guardar _ => true
  | EventoWorker.etapa _ => false

/-- The fecha field of a payload normalizes independently of the
clock: parseable dates and dates in the microseconds format satisfy
this; an absent, empty or unparseable fecha does not, because the
source then substitutes the current time. -/
def fechaNormalizaSinReloj (jsParse : String → Option String) (s? : Option String) : Prop :=
  ∀ a1 a2 : String, normalizarDatetime jsParse a1 s? = normalizarDatetime jsParse a2 s?

/-- The example payload of spec section 8: issuer RUC 80012345-1,
document number 0000060, document date 2026-02-24, no explicit
security code. -/
def datosEjemplo : DatosFactura where
  ruc := some "80012345-1"
  tipoDocumento := some 1
  establecimiento := some "001"
  punto := some "001"
  numero := some "0000060"
  tipoEmision := some 1
  codigoSeguridadAleatorio := none
  fecha := some "2026-02-24T15:12:58.715809"
  timbrado := some "12345678"

/-- The example payload with an explicit security code, for the
determinism witness. -/
def datosConCodigo : DatosFactura :=
  { datosEjemplo with codigoSeguridadAleatorio := some 123456789 }

/-- A payload that reaches the artifact-filename step with neither a
top-level punto nor encabezado.idDoc.dPunExp: the payload supplies its
own header, so completarDatosConEmpresa keeps it unchanged. -/
def datosSinPunto : DatosFactura :=
  { datosEjemplo with
    punto := none
    encabezado := some { idDoc := some { dNumTim := some "12345678" } } }

/-- An active example issuer with a valid certificate. -/
def empresaEjemplo : Empresa where
  ruc := "80012345-1"
  activo := true
  certValido := true
  timbrado := some "12345678"

/-- An example run environment whose random draw is the given number
and whose date parser reads the example date. -/
def entornoAleatorio (r : Nat) : Entorno where
  aleatorio := r
  ahora := { anio := 2026, mes := 2, dia := 26 }
  parseYMD := fun _ => some { anio := 2026, mes := 2, dia := 24 }

/-- The fixed example environment. -/
def entornoEjemplo : Entorno := entornoAleatorio 123456789

/-- External calls of a fully successful run: the remote authority
answers with result code 0000. -/
def extExito : ExtCalls where
  xmlgen := Except.ok "xml"
  firmar := Except.ok "xml firmado"
  qr := Except.ok "xml con qr"
  recibe := Except.ok { codigoRetorno := some "0000", mensajeRetorno := some "Lote recibido" }

/-- External calls of a run whose submission call throws a
connection-refused transport error; every earlier transform
succeeded. -/
def extFalloConexion : ExtCalls :=
  { extExito with recibe := Except.error "connect ECONNREFUSED 127.0.0.1:8082" }

/-- External calls of a run whose signing step throws. -/
def extFalloFirma : ExtCalls :=
  { extExito with firmar := Except.error "Certificado incorrecto" }

/-- The digits of the example 43-character CDC prefix. -/
def dsEjemplo : List Nat :=
  (((generarCDCSinDV datosEjemplo entornoEjemplo).data.mapM parseDigit).getD [])

/-- The identity-like date parser used by the concrete witnesses: it
accepts every string and echoes it. -/
def parseEco : String → Option String := fun s => some s

/-- The pipeline result of the fully successful example run, read off
the run itself (the default argument of getD is never used because
that run succeeds). -/
def resultadoEjemplo : Resultado :=
  ((procesarFactura datosEjemplo (some empresaEjemplo) extExito entornoEjemplo).2).toOption.getD
    { cdc := "", xmlPath := "", rutaArchivo := "", estado := "", codigoRetorno := ""
      mensajeRetorno := none, digestValue := none, fechaProceso := none, correlativo := "" }

end Fepy

namespace Fepy

theorem mk_data (s : String) : String.mk s.data = s := by
  cases s
  rfl

theorem toStringDigitData (n : Nat) (h : n ≤ 9) :
    (toString n).data = [Char.ofNat (48 + n)] := by
  interval_cases n <;> rfl

theorem dvDeDigitos_le_9 (ds : List Nat) : dvDeDigitos ds ≤ 9 := by
  have h : sumaPonderada ds.reverse 2 % 11 < 11 := Nat.mod_lt _ (by norm_num)
  simp only [dvDeDigitos]
  split_ifs <;> omega

theorem sumaPonderada_eq_spec (l : List Nat) (k : Nat) :
    sumaPonderada l (2 + k % 6) =
      (List.zipWith (fun d w => d * w) l
        ((List.range l.length).map (fun i => 2 + (k + i) % 6))).sum := by
  induction l generalizing k with
  | nil => simp [sumaPonderada]
  | cons d t ih =>
    have hstep : (if 2 + k % 6 ≥ 7 then 2 else 2 + k % 6 + 1) = 2 + (k + 1) % 6 := by
      split_ifs with h <;> omega
    have hfun : ((fun i => 2 + (k + i) % 6) ∘ Nat.succ) = fun i => 2 + (k + 1 + i) % 6 := by
      funext x
      have hx : k + Nat.succ x = k + 1 + x := by omega
      simp [Function.comp, hx]
    calc sumaPonderada (d :: t) (2 + k % 6)
        = d * (2 + k % 6) +
          sumaPonderada t (if 2 + k % 6 ≥ 7 then 2 else 2 + k % 6 + 1) := rfl
      _ = d * (2 + k % 6) + sumaPonderada t (2 + (k + 1) % 6) := by rw [hstep]
      _ = (List.zipWith (fun d w => d * w) (d :: t)
            ((List.range (d :: t).length).map (fun i => 2 + (k + i) % 6))).sum := by
          rw [ih (k + 1)]
          simp [List.range_succ_eq_map, List.map_map, hfun]

theorem dvDeDigitos_eq_spec (ds : List Nat) : dvDeDigitos ds = dvSpecDeDigitos ds := by
  have h2 : (2 : Nat) = 2 + 0 % 6 := by norm_num
  have h := sumaPonderada_eq_spec ds.reverse 0
  have hfun : (fun i => 2 + (0 + i) % 6) = pesoSpec := by
    funext x
    simp [pesoSpec]
  simp only [dvDeDigitos, dvSpecDeDigitos]
  rw [h2, h, hfun, List.length_reverse]

end Fepy

namespace Fepy

/-- Claim C6: the check digit computed by calcularDV follows the
weighted modulo-11 algorithm of the specification (right-to-left scan,
weights cycling 2 through 7, digit 0 for remainder 0, 1 for remainder
1, otherwise 11 minus the remainder), and the round-trip law holds:
for every control identifier produced by generarCDC over numeric
payload fields (every character of the 43-character prefix a digit),
recomputing calcularDV over the identifier with its last digit
stripped reproduces that same last digit. -/
theorem calcularDV_spec_y_ley_de_ida_y_vuelta :
    (∀ (s : String) (ds : List Nat), s.data.mapM parseDigit = some ds →
      calcularDV s = toString (dvSpecDeDigitos ds)) ∧
    (∀ (d : DatosFactura) (env : Entorno) (ds : List Nat),
      (generarCDCSinDV d env).data.mapM parseDigit = some ds →
      calcularDV (stripLast (generarCDC d env)) = lastStr (generarCDC d env)) := by
  constructor
  · intro s ds h
    simp only [calcularDV, h]
    exact congrArg toString (dvDeDigitos_eq_spec ds)
  · intro d env ds h
    have hdv : calcularDV (generarCDCSinDV d env) = toString (dvDeDigitos ds) := by
      simp only [calcularDV, h]
    have hchar : (toString (dvDeDigitos ds)).data = [Char.ofNat (48 + dvDeDigitos ds)] :=
      toStringDigitData _ (dvDeDigitos_le_9 ds)
    have hcdc : generarCDC d env = generarCDCSinDV d env ++ toString (dvDeDigitos ds) := by
      simp only [generarCDC, hdv]
    have hdata : (generarCDC d env).data =
        (generarCDCSinDV d env).data ++ [Char.ofNat (48 + dvDeDigitos ds)] := by
      rw [hcdc, String.data_append, hchar]
    have hstrip : stripLast (generarCDC d env) = generarCDCSinDV d env := by
      rw [stripLast, hdata, List.dropLast_concat, mk_data]
    have hlast : lastStr (generarCDC d env) = toString (dvDeDigitos ds) := by
      rw [lastStr, hdata, List.getLast?_concat]
      rw [show (some (Char.ofNat (48 + dvDeDigitos ds))).toList = [Char.ofNat (48 + dvDeDigitos ds)] from rfl]
      rw [← hchar, mk_data]
    rw [hstrip, hdv, hlast]

/-- Witness for claim C6: both parts of the theorem applied at
concrete inputs, the spec equivalence at the digit string 123 and the
round-trip law at the example payload and environment. -/
theorem calcularDV_spec_y_ley_testigo :
    calcularDV "123" = toString (dvSpecDeDigitos [1, 2, 3]) ∧
    calcularDV (stripLast (generarCDC datosEjemplo entornoEjemplo)) =
      lastStr (generarCDC datosEjemplo entornoEjemplo) :=
  ⟨calcularDV_spec_y_ley_de_ida_y_vuelta.1 "123" [1, 2, 3] (by rfl),
   calcularDV_spec_y_ley_de_ida_y_vuelta.2 datosEjemplo entornoEjemplo dsEjemplo (by rfl)⟩

end Fepy

namespace Fepy

theorem determinarEstado_eq (c : String) (est men : Option String) :
    determinarEstadoSegunCodigoRetorno (some c) est men =
      if c = "" then "enviado"
      else if c = "0000" ∨ c = "0" ∨ c = "2" ∨ c = "0421" then "aceptado"
      else if c = "3" ∨ c = "0003" then "procesando"
      else if c = "1000" ∨ c = "1001" ∨ c = "1002" ∨ c = "1003" ∨ c = "1004" ∨ c = "1" then
        "rechazado"
      else "enviado" := by
  by_cases hc : c = "" <;> simp [determinarEstadoSegunCodigoRetorno, jsStr, hc]

/-- Claim C4: the result-code interpreter is a pure total function
into the defined lifecycle states: every input, including an absent or
empty code, yields exactly one of aceptado, procesando, rechazado,
enviado; the codes 0000, 0, 2 and 0421 map to aceptado, 3 and 0003 to
procesando, 1000 through 1004 and 1 to rechazado, and every unknown or
absent code to the enviado default, for every value of the auxiliary
arguments. -/
theorem determinarEstado_total_y_tabla (codigo est men : Option String) :
    (determinarEstadoSegunCodigoRetorno codigo est men = "aceptado" ∨
     determinarEstadoSegunCodigoRetorno codigo est men = "procesando" ∨
     determinarEstadoSegunCodigoRetorno codigo est men = "rechazado" ∨
     determinarEstadoSegunCodigoRetorno codigo est men = "enviado") ∧
    ((codigo = none ∨ codigo = some "") →
      determinarEstadoSegunCodigoRetorno codigo est men = "enviado") ∧
    (∀ c, codigo = some c → (c = "0000" ∨ c = "0" ∨ c = "2" ∨ c = "0421") →
      determinarEstadoSegunCodigoRetorno codigo est men = "aceptado") ∧
    (∀ c, codigo = some c → (c = "3" ∨ c = "0003") →
      determinarEstadoSegunCodigoRetorno codigo est men = "procesando") ∧
    (∀ c, codigo = some c →
      (c = "1000" ∨ c = "1001" ∨ c = "1002" ∨ c = "1003" ∨ c = "1004" ∨ c = "1") →
      determinarEstadoSegunCodigoRetorno codigo est men = "rechazado") ∧
    (∀ c, codigo = some c → c ≠ "" →
      ¬(c = "0000" ∨ c = "0" ∨ c = "2" ∨ c = "0421") →
      ¬(c = "3" ∨ c = "0003") →
      ¬(c = "1000" ∨ c = "1001" ∨ c = "1002" ∨ c = "1003" ∨ c = "1004" ∨ c = "1") →
      determinarEstadoSegunCodigoRetorno codigo est men = "enviado") := by
  rcases codigo with _ | c
  · refine ⟨?_, ?_, ?_, ?_, ?_, ?_⟩ <;> simp [determinarEstadoSegunCodigoRetorno, jsStr]
  · rw [determinarEstado_eq c est men]
    split_ifs with h0 h1 h2 h3
    · refine ⟨?_, ?_, ?_, ?_, ?_, ?_⟩ <;> simp_all
    · rcases h1 with h | h | h | h <;> subst h <;> refine ⟨?_, ?_, ?_, ?_, ?_, ?_⟩ <;> simp_all
    · rcases h2 with h | h <;> subst h <;> refine ⟨?_, ?_, ?_, ?_, ?_, ?_⟩ <;> simp_all
    · rcases h3 with h | h | h | h | h | h <;> subst h <;>
        refine ⟨?_, ?_, ?_, ?_, ?_, ?_⟩ <;> simp_all
    · refine ⟨?_, ?_, ?_, ?_, ?_, ?_⟩ <;> simp_all

/-- Witness for claim C4: the theorem applied at a representative of
each branch of the table, including an unknown code and the absent
code. -/
theorem determinarEstado_total_y_tabla_testigo :
    determinarEstadoSegunCodigoRetorno (some "0421") none none = "aceptado" ∧
    determinarEstadoSegunCodigoRetorno (some "0003") (some "x") none = "procesando" ∧
    determinarEstadoSegunCodigoRetorno (some "1004") none (some "y") = "rechazado" ∧
    determinarEstadoSegunCodigoRetorno (some "9999") none none = "enviado" ∧
    determinarEstadoSegunCodigoRetorno none none none = "enviado" :=
  ⟨(determinarEstado_total_y_tabla (some "0421") none none).2.2.1 "0421" rfl (by decide),
   (determinarEstado_total_y_tabla (some "0003") (some "x") none).2.2.2.1 "0003" rfl (by decide),
   (determinarEstado_total_y_tabla (some "1004") none (some "y")).2.2.2.2.1 "1004" rfl (by decide),
   (determinarEstado_total_y_tabla (some "9999") none none).2.2.2.2.2 "9999" rfl (by decide)
     (by decide) (by decide) (by decide),
   (determinarEstado_total_y_tabla none none none).2.1 (Or.inl rfl)⟩

end Fepy

namespace Fepy

theorem determinarEstadoRutas_eq (c : String) (est men : Option String) :
    determinarEstadoSegunCodigoRetornoRutas (some c) est men =
      if c = "" then "enviado"
      else if c = "0000" ∨ c = "0" ∨ c = "2" then "aceptado"
      else if c = "0421" then "aceptado"
      else if c = "3" ∨ c = "0003" then "procesando"
      else if c = "0420" then "error"
      else if c = "1000" ∨ c = "1001" ∨ c = "1002" ∨ c = "1003" ∨ c = "1004" ∨ c = "1" then
        "rechazado"
      else "enviado" := by
  by_cases hc : c = "" <;> simp [determinarEstadoSegunCodigoRetornoRutas, jsStr, hc]

/-- Counterexample for claim C9: at the result code 0420 the two
copies of the interpreter disagree, the service copy answering enviado
and the routes copy answering error, so they are not equivalent. -/
theorem interpretes_difieren_en_0420 :
    determinarEstadoSegunCodigoRetorno (some "0420") none none = "enviado" ∧
    determinarEstadoSegunCodigoRetornoRutas (some "0420") none none = "error" ∧
    determinarEstadoSegunCodigoRetorno (some "0420") none none ≠
      determinarEstadoSegunCodigoRetornoRutas (some "0420") none none := by
  refine ⟨rfl, rfl, ?_⟩
  decide

/-- Claim C9 as amended: the two copies of the result-code interpreter
agree on every result code other than 0420 and on every value of the
auxiliary arguments; on 0420 the service copy answers enviado while
the routes copy answers error. -/
theorem interpretes_equivalentes_salvo_0420 (codigo est men : Option String)
    (hc : codigo ≠ some "0420") :
    determinarEstadoSegunCodigoRetorno codigo est men =
      determinarEstadoSegunCodigoRetornoRutas codigo est men := by
  rcases codigo with _ | c
  · rfl
  · have hc420 : c ≠ "0420" := by
      intro h
      exact hc (by rw [h])
    rw [determinarEstado_eq c est men, determinarEstadoRutas_eq c est men]
    split_ifs <;> simp_all

/-- Witness for claim C9 as amended: the equivalence applied at the
rejection code 1000. -/
theorem interpretes_equivalentes_testigo :
    determinarEstadoSegunCodigoRetorno (some "1000") none none =
      determinarEstadoSegunCodigoRetornoRutas (some "1000") none none :=
  interpretes_equivalentes_salvo_0420 (some "1000") none none (by decide)

end Fepy

namespace Fepy

/-- Claim C7: under the configured job options of the invoicing queue
(3 attempts, exponential backoff with base delay 1000 milliseconds,
failed jobs retained), a job whose every attempt fails performs
exactly 3 attempts, the delays between consecutive attempts are 1000
and 2000 milliseconds and strictly increasing, and the job settles in
the failed terminal state and is retained rather than discarded. -/
theorem cola_tres_intentos_y_retencion (f : Nat → Bool) (hf : ∀ n, f n = false) :
    ejecutarJob facturaQueueOpciones f = (3, [1000, 2000], EstadoJob.failed) ∧
    List.Chain' (fun a b => a < b) (ejecutarJob facturaQueueOpciones f).2.1 ∧
    jobRetenidoTrasFallo facturaQueueOpciones = true := by
  have h : ejecutarJob facturaQueueOpciones f = (3, [1000, 2000], EstadoJob.failed) := by
    simp [ejecutarJob, ejecutarJobAux, facturaQueueOpciones, hf 0, hf 1, hf 2]
  refine ⟨h, ?_, by decide⟩
  rw [h]
  exact List.chain'_pair.mpr (by norm_num)

/-- Witness for claim C7: the theorem applied at the constantly
failing attempt function. -/
theorem cola_tres_intentos_testigo :
    ejecutarJob facturaQueueOpciones (fun _ => false) = (3, [1000, 2000], EstadoJob.failed) :=
  (cola_tres_intentos_y_retencion (fun _ => false) (fun _ => rfl)).1

/-- Counterexample for claim C3: the control identifier is not stable
across attempts when the payload omits codigoSeguridadAleatorio; two
runs of generarCDC over the identical example payload that differ only
in the random draw yield different identifiers, and nothing in the
repository persists or reuses the first identifier. -/
theorem generarCDC_inestable_sin_codigo :
    generarCDC datosEjemplo (entornoAleatorio 1) ≠ generarCDC datosEjemplo (entornoAleatorio 2) := by
  decide

/-- Claim C3 as amended: generarCDC is deterministic in the payload
alone whenever the payload carries a nonzero security code and a date
the engine parses: two environments that agree on the date parse of
that date (but may differ in random draw and clock) yield the same
identifier.  When the security code is absent (or 0, which JavaScript
treats as falsy), each call draws a fresh random code, and the
repository does not persist the first identifier for reuse on retry. -/
theorem generarCDC_determinista (d : DatosFactura) (env1 env2 : Entorno)
    (c : Nat) (s : String) (f : Fecha)
    (hc : d.codigoSeguridadAleatorio = some c) (hc0 : c ≠ 0)
    (hf : d.fecha = some s) (hs : s ≠ "")
    (hp1 : env1.parseYMD s = some f) (hp2 : env2.parseYMD s = some f) :
    generarCDC d env1 = generarCDC d env2 := by
  have hsin : generarCDCSinDV d env1 = generarCDCSinDV d env2 := by
    simp only [generarCDCSinDV, hc, hf, jsStr, orElseNat, if_neg hs, if_neg hc0, hp1, hp2]
  simp only [generarCDC, hsin]

/-- Witness for claim C3 as amended: determinism applied at the
example payload carrying the explicit security code 123456789, under
two environments differing in random draw and clock. -/
theorem generarCDC_determinista_testigo :
    generarCDC datosConCodigo (entornoAleatorio 1) = generarCDC datosConCodigo (entornoAleatorio 2) :=
  generarCDC_determinista datosConCodigo (entornoAleatorio 1) (entornoAleatorio 2)
    123456789 "2026-02-24T15:12:58.715809" { anio := 2026, mes := 2, dia := 24 }
    rfl (by decide) rfl (by decide) rfl rfl

end Fepy

namespace Fepy

/-- Claim C1 fails on the code: in procesarFactura the network
submission call precedes the durable artifact write.  On the example
run in which every external call succeeds, the submission action
occurs strictly before the write action; and on the run in which the
submission call throws a connection error, the write action never
occurs at all and the generated work is lost, the exact loss the
durability-before-submission invariant forbids. -/
theorem envio_precede_al_guardado :
    (procesarFactura datosEjemplo (some empresaEjemplo) extExito entornoEjemplo).1.indexOf
        Evento.enviarSET <
      (procesarFactura datosEjemplo (some empresaEjemplo) extExito entornoEjemplo).1.indexOf
        Evento.guardarXML ∧
    (procesarFactura datosEjemplo (some empresaEjemplo) extFalloConexion entornoEjemplo).1 =
      [Evento.generarXML, Evento.firmarXML, Evento.generarQR, Evento.enviarSET] ∧
    Evento.guardarXML ∉
      (procesarFactura datosEjemplo (some empresaEjemplo) extFalloConexion entornoEjemplo).1 ∧
    (procesarFactura datosEjemplo (some empresaEjemplo) extFalloConexion entornoEjemplo).2 =
      Except.error "connect ECONNREFUSED 127.0.0.1:8082" := by
  refine ⟨?_, ?_, ?_, ?_⟩ <;> first | decide | rfl

/-- Claim C2 fails on the code: a transport failure thrown by the
submission call is not caught inside procesarFactura (the only catch
block rethrows), so the pipeline run aborts with that error; the
worker catch block then writes the error state and the transport
message, but no artifact path is recorded because the artifact was
never written. -/
theorem fallo_transporte_aborta_sin_artefacto :
    (procesarFactura datosEjemplo (some empresaEjemplo) extFalloConexion entornoEjemplo).2 =
      Except.error "connect ECONNREFUSED 127.0.0.1:8082" ∧
    workerSaves
        (procesarFactura datosEjemplo (some empresaEjemplo) extFalloConexion entornoEjemplo).2 =
      [guardadoProcesando, guardadoError "connect ECONNREFUSED 127.0.0.1:8082"] ∧
    (guardadoError "connect ECONNREFUSED 127.0.0.1:8082").estadoSifen = "error" ∧
    (guardadoError "connect ECONNREFUSED 127.0.0.1:8082").mensajeRetorno =
      some "connect ECONNREFUSED 127.0.0.1:8082" ∧
    (guardadoError "connect ECONNREFUSED 127.0.0.1:8082").xmlPath = none := by
  refine ⟨?_, ?_, ?_, ?_, ?_⟩ <;> first | decide | rfl

/-- Claim C10 fails on the code: when a payload supplies its own
header without an emission point and without a top-level punto field,
the artifact-filename construction does not default the point
component to 001; its fallback chain evaluates the identifier
puntoEmision, which is not bound in the scope of procesarFactura, and
the run aborts with a ReferenceError even though every external call
succeeded, so the write action never occurs. -/
theorem nombre_archivo_lanza_referencia :
    construirNombreArchivo (completarDatosConEmpresa datosSinPunto empresaEjemplo) "12345678"
        none none =
      Except.error "ReferenceError: puntoEmision is not defined" ∧
    (procesarFactura datosSinPunto (some empresaEjemplo) extExito entornoEjemplo).2 =
      Except.error "ReferenceError: puntoEmision is not defined" ∧
    Evento.guardarXML ∉
      (procesarFactura datosSinPunto (some empresaEjemplo) extExito entornoEjemplo).1 := by
  refine ⟨?_, ?_, ?_⟩ <;> first | decide | rfl

end Fepy

namespace Fepy

theorem normalizar_conserva_ruc (p : String → Option String) (a : String) (d : DatosFactura) :
    (normalizarFechasEnObjeto p a d).ruc = d.ruc := by
  cases hd : d.fecha <;> simp [normalizarFechasEnObjeto, hd]

theorem normalizar_conserva_numero (p : String → Option String) (a : String) (d : DatosFactura) :
    (normalizarFechasEnObjeto p a d).numero = d.numero := by
  cases hd : d.fecha <;> simp [normalizarFechasEnObjeto, hd]

theorem normalizar_fecha_eq (p : String → Option String) (a : String) (d : DatosFactura) :
    (normalizarFechasEnObjeto p a d).fecha =
      d.fecha.map (fun s => normalizarDatetime p a (some s)) := by
  cases hd : d.fecha <;> simp [normalizarFechasEnObjeto, hd]

theorem hash_estable (p : String → Option String) (a1 a2 : String) (d0 : DatosFactura)
    (hf1 : fechaNormalizaSinReloj p d0.fecha)
    (hf2 : fechaNormalizaSinReloj p (some (normalizarDatetime p a1 d0.fecha))) :
    generarFacturaHash p a2 (normalizarFechasEnObjeto p a2 d0) =
      generarFacturaHash p a1 (normalizarFechasEnObjeto p a1 d0) := by
  unfold generarFacturaHash
  rw [normalizar_conserva_ruc, normalizar_conserva_ruc, normalizar_conserva_numero,
    normalizar_conserva_numero, normalizar_fecha_eq, normalizar_fecha_eq]
  cases hd : d0.fecha with
  | none =>
    rw [hd] at hf1
    have h01 := hf1 "0" "1"
    simp [normalizarDatetime, jsStr] at h01
  | some s =>
    rw [hd] at hf1 hf2
    have hN : normalizarDatetime p a2 (some s) = normalizarDatetime p a1 (some s) := hf1 a2 a1
    simp only [Option.map_some']
    rw [hN]
    have hout := hf2 a2 a1
    rw [hout]

end Fepy

namespace Fepy

/-- Claim C5: submitting the same payload twice through the ingress
endpoint creates exactly one Invoice record.  Under the preconditions
of a successful first call (a RUC that resolves to an active issuer
with a valid certificate, a payload date whose normalization does not
depend on the clock, and no previous record with the same fingerprint)
the first call answers 202 and appends one record in state encolado,
and the second call with the identical payload, even at a different
clock reading, computes the same fingerprint, performs no insert, and
answers 409 referencing the id of the record the first call created. -/
theorem ingreso_duplicado_unico
    (empresas : List Empresa) (db : List InvoiceRec) (jsParse : String → Option String)
    (now1 now2 : String) (d0 : DatosFactura) (r : String) (e : Empresa)
    (hruc : jsStr (d0.ruc.map jsTrim) = some r)
    (hemp : buscarEmpresa empresas r = some e)
    (hact : e.activo = true) (hcert : e.certValido = true)
    (hf1 : fechaNormalizaSinReloj jsParse d0.fecha)
    (hf2 : fechaNormalizaSinReloj jsParse (some (normalizarDatetime jsParse now1 d0.fecha)))
    (hdup : db.find? (fun i =>
      i.facturaHash =
        generarFacturaHash jsParse now1 (normalizarFechasEnObjeto jsParse now1 d0)) = none) :
    postGetEinvoice empresas db jsParse now1 d0 =
      (RespuestaIngreso.aceptado db.length,
        db ++ [crearInvoice db.length (normalizarFechasEnObjeto jsParse now1 d0)
          (generarFacturaHash jsParse now1 (normalizarFechasEnObjeto jsParse now1 d0))]) ∧
    postGetEinvoice empresas
        (db ++ [crearInvoice db.length (normalizarFechasEnObjeto jsParse now1 d0)
          (generarFacturaHash jsParse now1 (normalizarFechasEnObjeto jsParse now1 d0))])
        jsParse now2 d0 =
      (RespuestaIngreso.conflicto db.length,
        db ++ [crearInvoice db.length (normalizarFechasEnObjeto jsParse now1 d0)
          (generarFacturaHash jsParse now1 (normalizarFechasEnObjeto jsParse now1 d0))]) := by
  have hh := hash_estable jsParse now1 now2 d0 hf1 hf2
  constructor
  · simp only [postGetEinvoice, normalizar_conserva_ruc, hruc, hemp, hact, hcert, hdup]
    simp [crearInvoice]
  · simp only [postGetEinvoice, normalizar_conserva_ruc, hruc, hemp, hact, hcert, hh]
    simp only [List.find?_append, hdup, Option.none_or, List.find?_cons, List.find?_nil,
      crearInvoice]
    simp

end Fepy

namespace Fepy

/-- Witness for claim C5: the duplicate-rejection theorem applied at
the example issuer and payload over an empty database, with two
different clock readings for the two calls. -/
theorem ingreso_duplicado_unico_testigo :
    postGetEinvoice [empresaEjemplo] [] parseEco "A" datosEjemplo =
      (RespuestaIngreso.aceptado 0,
        [crearInvoice 0 (normalizarFechasEnObjeto parseEco "A" datosEjemplo)
          (generarFacturaHash parseEco "A" (normalizarFechasEnObjeto parseEco "A" datosEjemplo))]) ∧
    postGetEinvoice [empresaEjemplo]
        [crearInvoice 0 (normalizarFechasEnObjeto parseEco "A" datosEjemplo)
          (generarFacturaHash parseEco "A" (normalizarFechasEnObjeto parseEco "A" datosEjemplo))]
        parseEco "B" datosEjemplo =
      (RespuestaIngreso.conflicto 0,
        [crearInvoice 0 (normalizarFechasEnObjeto parseEco "A" datosEjemplo)
          (generarFacturaHash parseEco "A" (normalizarFechasEnObjeto parseEco "A" datosEjemplo))]) :=
  ingreso_duplicado_unico [empresaEjemplo] [] parseEco "A" "B" datosEjemplo "80012345-1"
    empresaEjemplo (by decide) rfl rfl rfl (fun _ _ => rfl) (fun _ _ => rfl) rfl

end Fepy

namespace Fepy

/-- Counterexample for claim C8: on a run whose signing stage throws,
the worker writes the terminal error state in its single final save,
but that save carries only the error message: the result code, the
artifact path and the submission timestamp are not written in it (nor
anywhere else), so the terminal state is not written in the same save
as the result code, artifact path and submission timestamp, as the
claim asserts of every invoice. -/
theorem guardado_terminal_de_error_sin_campos :
    workerSaves (procesarFactura datosEjemplo (some empresaEjemplo) extFalloFirma entornoEjemplo).2 =
      [guardadoProcesando, guardadoError "Certificado incorrecto"] ∧
    (guardadoError "Certificado incorrecto").estadoSifen = "error" ∧
    (guardadoError "Certificado incorrecto").mensajeRetorno = some "Certificado incorrecto" ∧
    (guardadoError "Certificado incorrecto").codigoRetorno = none ∧
    (guardadoError "Certificado incorrecto").xmlPath = none ∧
    (guardadoError "Certificado incorrecto").fechaEnvioAsignada = false := by
  refine ⟨?_, ?_, ?_, ?_, ?_, ?_⟩ <;> decide

/-- Claim C8 as amended: the ingress endpoint creates the record in
the encolado state; the worker writes the procesando state as the
first save of its run, before any pipeline stage action; exactly two
saves occur in a run, and the final save, last in the run, carries the
outcome: on a successful pipeline it carries the final state together
with the result code, result message, artifact path and submission
timestamp in that one save; on a pipeline failure it carries the error
state and the error message only, leaving result code, artifact path
and submission timestamp unset. -/
theorem ciclo_de_vida_transiciones
    (d : DatosFactura) (empresa? : Option Empresa) (ext : ExtCalls) (env : Entorno)
    (idNuevo : Nat) (dIns : DatosFactura) (hash : String) :
    (crearInvoice idNuevo dIns hash).estadoSifen = "encolado" ∧
    (workerRun d empresa? ext env).head? = some (EventoWorker.guardar guardadoProcesando) ∧
    (workerRun d empresa? ext env).countP esGuardado = 2 ∧
    (∀ r, (procesarFactura d empresa? ext env).2 = Except.ok r →
      (workerRun d empresa? ext env).getLast? =
        some (EventoWorker.guardar (guardadoExito r)) ∧
      (guardadoExito r).estadoSifen = r.estado ∧
      (guardadoExito r).codigoRetorno = some r.codigoRetorno ∧
      (guardadoExito r).mensajeRetorno = r.mensajeRetorno ∧
      (guardadoExito r).xmlPath = some r.xmlPath ∧
      (guardadoExito r).fechaEnvioAsignada = true) ∧
    (∀ m, (procesarFactura d empresa? ext env).2 = Except.error m →
      (workerRun d empresa? ext env).getLast? =
        some (EventoWorker.guardar (guardadoError m)) ∧
      (guardadoError m).estadoSifen = "error" ∧
      (guardadoError m).mensajeRetorno = some m ∧
      (guardadoError m).codigoRetorno = none ∧
      (guardadoError m).xmlPath = none ∧
      (guardadoError m).fechaEnvioAsignada = false) := by
  refine ⟨rfl, ?_, ?_, ?_, ?_⟩
  · simp [workerRun]
  · simp [workerRun, List.countP_append, List.countP_map, esGuardado, Function.comp,
      List.countP_cons, guardadoProcesando]
  · intro r hr
    refine ⟨?_, rfl, rfl, rfl, rfl, rfl⟩
    simp only [workerRun, hr]
    exact List.getLast?_concat _
  · intro m hm
    refine ⟨?_, rfl, rfl, rfl, rfl, rfl⟩
    simp only [workerRun, hm]
    exact List.getLast?_concat _

/-- Witness for claim C8 as amended: the lifecycle theorem applied at
the fully successful example run and at a concrete record creation. -/
theorem ciclo_de_vida_transiciones_testigo :
    (crearInvoice 0 datosEjemplo "hash").estadoSifen = "encolado" ∧
    (workerRun datosEjemplo (some empresaEjemplo) extExito entornoEjemplo).getLast? =
      some (EventoWorker.guardar (guardadoExito resultadoEjemplo)) :=
  ⟨(ciclo_de_vida_transiciones datosEjemplo (some empresaEjemplo) extExito entornoEjemplo
      0 datosEjemplo "hash").1,
   ((ciclo_de_vida_transiciones datosEjemplo (some empresaEjemplo) extExito entornoEjemplo
      0 datosEjemplo "hash").2.2.2.1 resultadoEjemplo rfl).1⟩

end Fepy
